import Mathlib

/-!
Shallow embedding of the car-tracker status-transition subsystem:
`src/app/lib/car-db.ts` (CarDB), `src/app/lib/car-updates.ts`
(CarUpdatesServer), `src/app/lib/validation.ts` (zod schemas) and
`src/app/hooks/useRevalidateOnCarUpdates.ts` (client observer channel).

The D1 database is modelled as explicit state (`DB`); each database
statement is translated to its effect on that state.  Wall-clock time is
passed explicitly (`new Date().toISOString()` becomes a `currentTime`
argument).  Fallible delivery (the broadcast stub fetch, per-socket
`send`) is modelled by explicit failure flags, mirroring the try/catch
structure of the code.
-/

namespace CarTracker

/-- The `CarStatus` string-union type of car-db.ts. -/
inductive CarStatus where
  | PRE_ARRIVAL
  | REGISTERED
  | ON_DECK
  | DONE
  | PICKED_UP
deriving DecidableEq, Repr

/-- The string a `CarStatus` value denotes (statuses are strings in TS). -/
def CarStatus.text : CarStatus → String
  | .PRE_ARRIVAL => "PRE_ARRIVAL"
  | .REGISTERED => "REGISTERED"
  | .ON_DECK => "ON_DECK"
  | .DONE => "DONE"
  | .PICKED_UP => "PICKED_UP"

/-- A row of the `cars` table / the `Car` interface of car-db.ts. -/
structure Car where
  id : Nat
  make : String
  model : String
  color : String
  license_plate : String
  status : CarStatus
  created_at : String
  registered_at : Option String
  on_deck_at : Option String
  completed_at : Option String
  picked_up_at : Option String
deriving DecidableEq, Repr

/-- A row of the `status_history` table / `StatusHistoryEntry`
(the autoincrement `id` column is left implicit: rows are kept in
insertion order). -/
structure StatusHistoryEntry where
  car_id : Nat
  previous_status : Option String
  new_status : String
  changed_at : String
deriving DecidableEq, Repr

/-- The durable database state operated on by the CarDB layer. -/
structure DB where
  cars : List Car
  status_history : List StatusHistoryEntry
deriving DecidableEq, Repr

/-- `CarDB.getCarById`: `SELECT * FROM cars WHERE id = ?`, first row
(`id` is the table's primary key, so at most one row matches). -/
def getCarById (db : DB) (id : Nat) : Option Car :=
  db.cars.find? (fun c => c.id == id)

/-- `CarDB.getTimestampField`: the timestamp column associated with a
status, or `none` (the `default` switch branch, hit by PRE_ARRIVAL). -/
def getTimestampField : CarStatus → Option String
  | .REGISTERED => some "registered_at"
  | .ON_DECK => some "on_deck_at"
  | .DONE => some "completed_at"
  | .PICKED_UP => some "picked_up_at"
  | .PRE_ARRIVAL => none

/-- Effect on one row of `SET <field> = ?` for a timestamp column name. -/
def setColumn (c : Car) (field : String) (t : String) : Car :=
  if field = "registered_at" then { c with registered_at := some t }
  else if field = "on_deck_at" then { c with on_deck_at := some t }
  else if field = "completed_at" then { c with completed_at := some t }
  else if field = "picked_up_at" then { c with picked_up_at := some t }
  else c

/-- Read a timestamp column of a row by column name. -/
def readColumn (c : Car) (field : String) : Option String :=
  if field = "registered_at" then c.registered_at
  else if field = "on_deck_at" then c.on_deck_at
  else if field = "completed_at" then c.completed_at
  else if field = "picked_up_at" then c.picked_up_at
  else none

/-- Effect of the dynamically built
`UPDATE cars SET status = ?[, <timestampField> = ?] WHERE id = ?`
on a row whose `id` matches: the status is replaced and, when
`getTimestampField` yields a column, that column is assigned the current
time (the built query carries no null-guard on the column). -/
def applyUpdateRow (c : Car) (newStatus : CarStatus) (currentTime : String) : Car :=
  let c1 : Car := { c with status := newStatus }
  match getTimestampField newStatus with
  | some field => setColumn c1 field currentTime
  | none => c1

/-- The broadcast payload built by `CarDB.broadcastStatusUpdate` and
validated by `carStatusUpdateSchema` (`carId` is a JS number). -/
structure CarStatusUpdate where
  carId : Int
  oldStatus : String
  newStatus : String
  timestamp : String
deriving DecidableEq, Repr

/-- Result of one `updateCarStatus` call: the returned value, the
database state after the call, and the broadcast events that reached the
hub (empty when the stub fetch threw: the catch block only logs). -/
structure UpdateOutcome where
  ret : Option Car
  db : DB
  broadcasts : List CarStatusUpdate
deriving Repr

/-- `CarDB.updateCarStatus`: reads the current car (for the history's
previous status, defaulting to the string UNKNOWN), then runs one atomic
batch of two statements — the status/timestamp UPDATE and the
unconditional INSERT into status_history — then, when the UPDATE matched
no row, returns null; otherwise re-reads the car, attempts the broadcast
(failures caught and logged), and returns the updated car.
`broadcastThrows` models the stub fetch throwing. -/
def updateCarStatus (db : DB) (id : Nat) (newStatus : CarStatus)
    (currentTime : String) (broadcastThrows : Bool) : UpdateOutcome :=
  let currentCar := getCarById db id
  let oldStatus := match currentCar with
    | some car => car.status.text
    | none => "UNKNOWN"
  -- batch statement 1: the UPDATE (changes = rows matched by WHERE id = ?)
  let cars1 := db.cars.map (fun c =>
    if c.id == id then applyUpdateRow c newStatus currentTime else c)
  let changes := (db.cars.filter (fun c => c.id == id)).length
  -- batch statement 2: INSERT INTO status_history (car_id, previous_status, new_status, changed_at)
  let history1 := db.status_history ++
    [⟨id, some oldStatus, newStatus.text, currentTime⟩]
  let db1 : DB := ⟨cars1, history1⟩
  if changes = 0 then
    { ret := none, db := db1, broadcasts := [] }
  else
    match getCarById db1 id with
    | some updatedCar =>
        { ret := some updatedCar
          db := db1
          broadcasts :=
            if broadcastThrows then []
            else [⟨(id : Int), oldStatus, newStatus.text, currentTime⟩] }
    | none => { ret := none, db := db1, broadcasts := [] }

/-! Helper lemmas about the update statement. -/

theorem setColumn_id (c : Car) (field t : String) : (setColumn c field t).id = c.id := by
  unfold setColumn
  split_ifs <;> rfl

theorem applyUpdateRow_id (c : Car) (s : CarStatus) (t : String) :
    (applyUpdateRow c s t).id = c.id := by
  unfold applyUpdateRow
  cases s <;> simp [getTimestampField, setColumn_id]

theorem find?_map_update (l : List Car) (id : Nat) (s : CarStatus) (t : String) :
    (l.map (fun c => if c.id == id then applyUpdateRow c s t else c)).find?
        (fun c => c.id == id)
      = (l.find? (fun c => c.id == id)).map (fun c => applyUpdateRow c s t) := by
  induction l with
  | nil => rfl
  | cons c rest ih =>
      simp only [List.map_cons]
      by_cases h : (c.id == id) = true
      · rw [if_pos h]
        rw [List.find?_cons_of_pos (p := fun (x : Car) => x.id == id) _
          (by show ((applyUpdateRow c s t).id == id) = true
              rw [applyUpdateRow_id c s t]
              exact h)]
        rw [List.find?_cons_of_pos (p := fun (x : Car) => x.id == id) _ h]
        rfl
      · rw [if_neg h]
        rw [List.find?_cons_of_neg (p := fun (x : Car) => x.id == id) _ h,
          List.find?_cons_of_neg (p := fun (x : Car) => x.id == id) _ h]
        exact ih

theorem changes_ne_zero_of_found (l : List Car) (id : Nat) (c : Car)
    (h : l.find? (fun x => x.id == id) = some c) :
    (l.filter (fun x => x.id == id)).length ≠ 0 := by
  have hm : c ∈ l := List.mem_of_find?_eq_some h
  have hp := List.find?_some h
  have hmem : c ∈ l.filter (fun x => x.id == id) := List.mem_filter.mpr ⟨hm, hp⟩
  intro hlen
  rw [List.length_eq_zero] at hlen
  rw [hlen] at hmem
  exact (List.not_mem_nil c) hmem

/-- Shape of a successful `updateCarStatus` call on an existing car. -/
theorem updateCarStatus_found (db : DB) (id : Nat) (s : CarStatus)
    (t : String) (bt : Bool) (c : Car) (hc : getCarById db id = some c) :
    (updateCarStatus db id s t bt).ret = some (applyUpdateRow c s t) ∧
    (updateCarStatus db id s t bt).db =
      ⟨db.cars.map (fun x => if x.id == id then applyUpdateRow x s t else x),
       db.status_history ++ [⟨id, some c.status.text, s.text, t⟩]⟩ := by
  have hc' : db.cars.find? (fun x => x.id == id) = some c := hc
  have hch := changes_ne_zero_of_found db.cars id c hc'
  have hfind :
      (db.cars.map (fun x => if x.id == id then applyUpdateRow x s t else x)).find?
          (fun x => x.id == id) = some (applyUpdateRow c s t) := by
    rw [find?_map_update, hc']
    rfl
  simp only [updateCarStatus, getCarById, hc', hfind]
  rw [if_neg hch]
  exact ⟨rfl, rfl⟩

/-! Concrete data used in closed theorems. -/

/-- A car that has already entered REGISTERED once (registered_at set). -/
def exCar : Car :=
  { id := 1, make := "Toyota", model := "Corolla", color := "red"
    license_plate := "ABC123", status := CarStatus.REGISTERED
    created_at := "2025-06-01T09:00:00Z"
    registered_at := some "2025-06-01T10:05:00Z"
    on_deck_at := none, completed_at := none, picked_up_at := none }

/-- A one-car store, with an empty history ledger. -/
def exDB : DB := ⟨[exCar], []⟩

/-- C1: the claim asserts the stage timestamp is written only when it is
currently null.  At this input car 1 is already REGISTERED with
`registered_at` set, yet re-applying REGISTERED overwrites the stored
first-arrival timestamp with the new current time: the claim is false. -/
theorem C1_counterexample :
    exCar.registered_at = some "2025-06-01T10:05:00Z" ∧
    getCarById exDB 1 = some exCar ∧
    (updateCarStatus exDB 1 CarStatus.REGISTERED "2025-06-01T11:00:00Z" false).ret.map
        Car.registered_at
      = some (some "2025-06-01T11:00:00Z") := by
  exact ⟨rfl, rfl, rfl⟩

/-- C1 (amended): for every call on an existing car whose target status
has a timestamp column, the call unconditionally sets that column to the
current time — re-entering a stage overwrites (resets) its stored
first-arrival timestamp. -/
theorem C1_amended_timestamp_overwritten (db : DB) (id : Nat)
    (newStatus : CarStatus) (t : String) (bt : Bool) (c : Car) (field : String)
    (hc : getCarById db id = some c)
    (hf : getTimestampField newStatus = some field) :
    ∃ c2, (updateCarStatus db id newStatus t bt).ret = some c2 ∧
      readColumn c2 field = some t := by
  refine ⟨applyUpdateRow c newStatus t,
    (updateCarStatus_found db id newStatus t bt c hc).1, ?_⟩
  cases newStatus <;> simp only [getTimestampField] at hf
  case PRE_ARRIVAL => exact Option.noConfusion hf
  all_goals
    injection hf with hfe
    subst hfe
    simp [applyUpdateRow, getTimestampField, setColumn, readColumn]

/-- Witness for C1 (amended) at a concrete input: re-registering car 1
at a later time leaves its registered_at equal to the new time. -/
theorem C1_amended_witness :
    ∃ c2, (updateCarStatus exDB 1 CarStatus.REGISTERED "2025-06-01T11:00:00Z" false).ret
        = some c2 ∧ readColumn c2 "registered_at" = some "2025-06-01T11:00:00Z" :=
  C1_amended_timestamp_overwritten exDB 1 CarStatus.REGISTERED
    "2025-06-01T11:00:00Z" false exCar "registered_at" rfl rfl

/-- C2: a successful update of an existing car appends, in the same
atomic batch as the status write, exactly one history entry whose
previous_status is the car's status immediately before the call and
whose new_status is the applied status; the per-car history count grows
by exactly one. -/
theorem C2_history_entry (db : DB) (id : Nat) (newStatus : CarStatus)
    (t : String) (bt : Bool) (c : Car) (hc : getCarById db id = some c) :
    ((updateCarStatus db id newStatus t bt).ret).isSome = true ∧
    (updateCarStatus db id newStatus t bt).db.status_history
      = db.status_history ++ [⟨id, some c.status.text, newStatus.text, t⟩] ∧
    ((updateCarStatus db id newStatus t bt).db.status_history.filter
        (fun e => e.car_id == id)).length
      = (db.status_history.filter (fun e => e.car_id == id)).length + 1 := by
  obtain ⟨hret, hdb⟩ := updateCarStatus_found db id newStatus t bt c hc
  refine ⟨by rw [hret]; rfl, by rw [hdb], ?_⟩
  rw [hdb]
  simp [List.filter_append]

/-- Witness for C2 at a concrete input: updating car 1 to ON_DECK
appends the single entry recording REGISTERED to ON_DECK. -/
theorem C2_history_entry_witness :
    ((updateCarStatus exDB 1 CarStatus.ON_DECK "2025-06-01T11:00:00Z" false).ret).isSome
        = true ∧
    (updateCarStatus exDB 1 CarStatus.ON_DECK "2025-06-01T11:00:00Z" false).db.status_history
      = [] ++ [⟨1, some "REGISTERED", "ON_DECK", "2025-06-01T11:00:00Z"⟩] ∧
    ((updateCarStatus exDB 1 CarStatus.ON_DECK "2025-06-01T11:00:00Z" false).db.status_history.filter
        (fun e => e.car_id == 1)).length
      = ([] : List StatusHistoryEntry).length + 1 := by
  have h := C2_history_entry exDB 1 CarStatus.ON_DECK "2025-06-01T11:00:00Z" false exCar rfl
  exact ⟨h.1, h.2.1, by rw [h.2.1]; rfl⟩

/-- C3 at the failing input: with no car 999 in the store, the call
returns null and broadcasts nothing, but the unconditional second batch
statement still appends an orphan status_history row (car_id 999,
previous_status the UNKNOWN sentinel) — the stored state is mutated,
contradicting the claim (and the schema's foreign-key declaration that
every history row references an existing car). -/
theorem C3_not_found_still_appends_history :
    (updateCarStatus exDB 999 CarStatus.REGISTERED "2025-06-01T12:00:00Z" false).ret
        = none ∧
    (updateCarStatus exDB 999 CarStatus.REGISTERED "2025-06-01T12:00:00Z" false).broadcasts
        = [] ∧
    (updateCarStatus exDB 999 CarStatus.REGISTERED "2025-06-01T12:00:00Z" false).db.cars
        = exDB.cars ∧
    (updateCarStatus exDB 999 CarStatus.REGISTERED "2025-06-01T12:00:00Z" false).db.status_history
        = [⟨999, some "UNKNOWN", "REGISTERED", "2025-06-01T12:00:00Z"⟩] := by
  exact ⟨rfl, rfl, rfl, rfl⟩

/-- C6: whether or not the broadcast stub fetch throws after the commit,
the value returned by updateCarStatus and the stored state (status,
timestamps, history) are identical — a broadcast failure never fails or
rolls back the committed transition. -/
theorem C6_broadcast_failure_harmless (db : DB) (id : Nat)
    (newStatus : CarStatus) (t : String) :
    (updateCarStatus db id newStatus t true).ret
        = (updateCarStatus db id newStatus t false).ret ∧
    (updateCarStatus db id newStatus t true).db
        = (updateCarStatus db id newStatus t false).db := by
  unfold updateCarStatus
  by_cases h : (db.cars.filter (fun c => c.id == id)).length = 0
  · simp [h]
  · simp only [h, if_neg, if_false]
    cases getCarById ⟨db.cars.map (fun c =>
        if c.id == id then applyUpdateRow c newStatus t else c),
      db.status_history ++ [⟨id, some (match getCarById db id with
        | some car => car.status.text
        | none => "UNKNOWN"), newStatus.text, t⟩]⟩ id with
    | none => exact ⟨rfl, rfl⟩
    | some updatedCar => exact ⟨rfl, rfl⟩

/-! The search path of car-db.ts (`searchCarByIdOrLicensePlate`). -/

/-- Models JS `searchTerm.trim()`: strip leading and trailing whitespace. -/
def trimString (s : String) : String :=
  ⟨((s.toList.dropWhile Char.isWhitespace).reverse.dropWhile Char.isWhitespace).reverse⟩

/-- The regex test `/^\d+$/.test(s)`: non-empty and every character a
decimal digit. -/
def isAllDigits (s : String) : Bool :=
  !s.toList.isEmpty && s.toList.all Char.isDigit

/-- `parseInt(s, 10)` on an all-digit string: its decimal value. -/
def parseDecimal (s : String) : Nat :=
  s.toList.foldl (fun n c => n * 10 + (c.toNat - 48)) 0

/-- `ORDER BY id ASC LIMIT 1 ... .first()` over a result set: the row
with the smallest id, or none when the set is empty. -/
def minByIdCar : List Car → Option Car
  | [] => none
  | c :: rest =>
      match minByIdCar rest with
      | none => some c
      | some d => if c.id ≤ d.id then some c else some d

/-- `SELECT * FROM cars WHERE license_plate = ? ORDER BY id ASC LIMIT 1`,
first row. -/
def queryPlateExactFirst (db : DB) (plate : String) : Option Car :=
  minByIdCar (db.cars.filter (fun c => c.license_plate == plate))

/-- `CarDB.searchCarByIdOrLicensePlate`: trim the term; when it is purely
numeric, try an exact ID match first and return it if found; otherwise
fall back to the exact license-plate query. -/
def searchCarByIdOrLicensePlate (db : DB) (searchTerm : String) : Option Car :=
  let cleanSearchTerm := trimString searchTerm
  let byId : Option Car :=
    if isAllDigits cleanSearchTerm then getCarById db (parseDecimal cleanSearchTerm)
    else none
  match byId with
  | some car => some car
  | none => queryPlateExactFirst db cleanSearchTerm

theorem minByIdCar_cons (c : Car) (rest : List Car) :
    minByIdCar (c :: rest)
      = match minByIdCar rest with
        | none => some c
        | some d => if c.id ≤ d.id then some c else some d := rfl

theorem minByIdCar_cons_none (c : Car) (rest : List Car)
    (hr : minByIdCar rest = none) : minByIdCar (c :: rest) = some c := by
  rw [minByIdCar_cons, hr]

theorem minByIdCar_cons_some (c : Car) (rest : List Car) (d : Car)
    (hr : minByIdCar rest = some d) :
    minByIdCar (c :: rest) = if c.id ≤ d.id then some c else some d := by
  rw [minByIdCar_cons, hr]

theorem minByIdCar_cons_ne_none (c : Car) (rest : List Car) :
    minByIdCar (c :: rest) ≠ none := by
  cases hr : minByIdCar rest with
  | none => rw [minByIdCar_cons_none c rest hr]; simp
  | some d =>
      rw [minByIdCar_cons_some c rest d hr]
      by_cases hle : c.id ≤ d.id <;> simp [hle]

theorem minByIdCar_mem (l : List Car) (c : Car) (h : minByIdCar l = some c) :
    c ∈ l := by
  induction l generalizing c with
  | nil => cases h
  | cons a rest ih =>
      cases hr : minByIdCar rest with
      | none =>
          rw [minByIdCar_cons_none a rest hr] at h
          injection h with h1
          rw [← h1]
          exact List.mem_cons_self a rest
      | some d =>
          rw [minByIdCar_cons_some a rest d hr] at h
          by_cases hle : a.id ≤ d.id
          · rw [if_pos hle] at h
            injection h with h1
            rw [← h1]
            exact List.mem_cons_self a rest
          · rw [if_neg hle] at h
            injection h with h1
            rw [← h1]
            exact List.mem_cons_of_mem a (ih d hr)

theorem minByIdCar_min (l : List Car) (c : Car) (h : minByIdCar l = some c) :
    ∀ d ∈ l, c.id ≤ d.id := by
  induction l generalizing c with
  | nil => cases h
  | cons a rest ih =>
      intro d hd
      cases hr : minByIdCar rest with
      | none =>
          have hrest : rest = [] := by
            cases rest with
            | nil => rfl
            | cons b r => exact absurd hr (minByIdCar_cons_ne_none b r)
          rw [minByIdCar_cons_none a rest hr] at h
          injection h with h1
          subst hrest
          rcases List.mem_cons.mp hd with heq | hd'
          · rw [heq, ← h1]
          · exact absurd hd' (List.not_mem_nil d)
      | some e =>
          rw [minByIdCar_cons_some a rest e hr] at h
          rcases List.mem_cons.mp hd with heq | hd'
          · rw [heq]
            by_cases hle : a.id ≤ e.id
            · rw [if_pos hle] at h
              injection h with h1
              rw [← h1]
            · rw [if_neg hle] at h
              injection h with h1
              rw [← h1]
              exact le_of_not_le hle
          · by_cases hle : a.id ≤ e.id
            · rw [if_pos hle] at h
              injection h with h1
              rw [← h1]
              exact le_trans hle (ih e hr d hd')
            · rw [if_neg hle] at h
              injection h with h1
              rw [← h1]
              exact ih e hr d hd'

/-- C5: the search returns at most one car (an Option); when the trimmed
term is purely numeric and an exact ID match exists it is returned
first; otherwise the result is the exact-plate match with the smallest
id, and none exactly when no car carries that plate. -/
theorem C5_search_contract (db : DB) (term : String) :
    (∀ c, isAllDigits (trimString term) = true →
        getCarById db (parseDecimal (trimString term)) = some c →
        searchCarByIdOrLicensePlate db term = some c) ∧
    ((isAllDigits (trimString term) = true →
        getCarById db (parseDecimal (trimString term)) = none) →
      (∀ c, searchCarByIdOrLicensePlate db term = some c →
          c ∈ db.cars ∧ c.license_plate = trimString term ∧
          ∀ d ∈ db.cars, d.license_plate = trimString term → c.id ≤ d.id) ∧
      (searchCarByIdOrLicensePlate db term = none ↔
        ∀ d ∈ db.cars, d.license_plate ≠ trimString term)) := by
  constructor
  · intro c hdig hfound
    simp [searchCarByIdOrLicensePlate, hdig, hfound]
  · intro hbyid
    have hbr : (if isAllDigits (trimString term)
          then getCarById db (parseDecimal (trimString term)) else none) = none := by
      by_cases hd : isAllDigits (trimString term) = true
      · simp [hd, hbyid hd]
      · rw [Bool.not_eq_true] at hd
        simp [hd]
    have hs : searchCarByIdOrLicensePlate db term
        = queryPlateExactFirst db (trimString term) := by
      simp only [searchCarByIdOrLicensePlate, hbr]
    constructor
    · intro c hc
      rw [hs] at hc
      unfold queryPlateExactFirst at hc
      have hmem := minByIdCar_mem _ _ hc
      have hmin := minByIdCar_min _ _ hc
      have hmf := List.mem_filter.mp hmem
      refine ⟨hmf.1, by simpa using hmf.2, ?_⟩
      intro d hd hpl
      exact hmin d (List.mem_filter.mpr ⟨hd, by simp [hpl]⟩)
    · rw [hs]
      unfold queryPlateExactFirst
      constructor
      · intro hnone d hd hpl
        have hnil : db.cars.filter (fun c => c.license_plate == trimString term) = [] := by
          cases hf : db.cars.filter (fun c => c.license_plate == trimString term) with
          | nil => rfl
          | cons a rest =>
              rw [hf] at hnone
              exact absurd hnone (minByIdCar_cons_ne_none a rest)
        have hdm : d ∈ db.cars.filter (fun c => c.license_plate == trimString term) :=
          List.mem_filter.mpr ⟨hd, by simp [hpl]⟩
        rw [hnil] at hdm
        exact (List.not_mem_nil d) hdm
      · intro hall
        cases hf : db.cars.filter (fun c => c.license_plate == trimString term) with
        | nil => rfl
        | cons a rest =>
            have ham : a ∈ db.cars.filter (fun c => c.license_plate == trimString term) := by
              rw [hf]
              exact List.mem_cons_self a rest
            have hm2 := List.mem_filter.mp ham
            exact absurd (by simpa using hm2.2) (hall a hm2.1)

/-- Witness for C5: searching the one-car store for " 1 " (numeric after
trimming) finds car 1 by exact ID match. -/
theorem C5_search_witness :
    searchCarByIdOrLicensePlate exDB " 1 " = some exCar :=
  (C5_search_contract exDB " 1 ").1 exCar (by decide) (by decide)

/-! The wire format (validation.ts) and the observer channel
(useRevalidateOnCarUpdates.ts). -/

/-- JSON values as produced by `JSON.parse`.  Integer-valued numbers are
carried exactly; `numFrac` stands for any number with a fractional part
(rejected by `z.number().int()`). -/
inductive Json where
  | null
  | bool (b : Bool)
  | num (n : Int)
  | numFrac
  | str (s : String)
  | arr (items : List Json)
  | obj (fields : List (String × Json))

/-- Property lookup on a parsed JSON object. -/
def getField (fields : List (String × Json)) (key : String) : Option Json :=
  match fields with
  | [] => none
  | (k, v) :: rest => if k = key then some v else getField rest key

/-- Tail of zod's default `z.string().datetime()` shape after the seconds:
either `Z` directly, or a dot, one or more digits, then `Z`. -/
def isFracThenZ : List Char → Bool
  | ['Z'] => true
  | '.' :: rest =>
      !(rest.takeWhile Char.isDigit).isEmpty
        && rest.dropWhile Char.isDigit == ['Z']
  | _ => false

/-- zod's default `z.string().datetime()` (no offset, any precision):
`dddd-dd-ddTdd:dd:dd(.d+)?Z`. -/
def isIsoDatetime (s : String) : Bool :=
  match s.toList with
  | y1 :: y2 :: y3 :: y4 :: c1 :: m1 :: m2 :: c2 :: d1 :: d2 :: ct ::
      h1 :: h2 :: c3 :: n1 :: n2 :: c4 :: s1 :: s2 :: rest =>
      ([y1, y2, y3, y4, m1, m2, d1, d2, h1, h2, n1, n2, s1, s2].all Char.isDigit)
        && c1 == '-' && c2 == '-' && ct == 'T' && c3 == ':' && c4 == ':'
        && isFracThenZ rest
  | _ => false

/-- `carStatusUpdateSchema.safeParse` on a JSON value: an object with an
integer positive `carId`, string `oldStatus` and `newStatus`, and an
ISO-8601 datetime string `timestamp`. -/
def parseCarStatusUpdate (j : Json) : Option CarStatusUpdate :=
  match j with
  | .obj fields =>
      match getField fields "carId", getField fields "oldStatus",
            getField fields "newStatus", getField fields "timestamp" with
      | some (.num carId), some (.str oldS), some (.str newS), some (.str ts) =>
          if (decide (0 < carId)) && isIsoDatetime ts then
            some ⟨carId, oldS, newS, ts⟩
          else none
      | _, _, _, _ => none
  | _ => none

/-- `carUpdateMessageSchema.safeParse`: the envelope must be an object
whose `type` is the literal string car_status_update and whose `data`
satisfies `carStatusUpdateSchema`. -/
def parseCarUpdateMessage (j : Json) : Option CarStatusUpdate :=
  match j with
  | .obj fields =>
      match getField fields "type", getField fields "data" with
      | some (.str t), some dataJson =>
          if t = "car_status_update" then parseCarStatusUpdate dataJson else none
      | _, _ => none
  | _ => none

/-- The options object of `useRevalidateOnCarUpdates` (`none` models an
omitted/undefined option). -/
structure SubscriberFilters where
  statusFilter : Option CarStatus
  carIdFilter : Option Int

/-- `!statusFilter || update.oldStatus === statusFilter || update.newStatus
=== statusFilter` (a present `CarStatus` string is always truthy). -/
def matchesStatus (statusFilter : Option CarStatus) (u : CarStatusUpdate) : Bool :=
  match statusFilter with
  | none => true
  | some s => u.oldStatus == s.text || u.newStatus == s.text

/-- `!carIdFilter || update.carId === carIdFilter`: an absent filter is
falsy, and so is the number 0. -/
def matchesCarId (carIdFilter : Option Int) (u : CarStatusUpdate) : Bool :=
  match carIdFilter with
  | none => true
  | some k => k == 0 || u.carId == k

/-- What one `ws.onmessage` invocation does.  The handler in the hook can
only log-and-drop, skip a non-matching update, or trigger
`revalidator.revalidate()`; the `mergeState` and `closeChannel` outcomes
exist in the model to state that the code never produces them. -/
inductive HandlerOutcome where
  | discarded
  | filteredOut
  | revalidate
  | mergeState (u : CarStatusUpdate)
  | closeChannel
deriving DecidableEq, Repr

/-- The `ws.onmessage` handler of useRevalidateOnCarUpdates: `JSON.parse`
(a `none` input models a parse throw, caught and logged), zod validation
(failures warned and dropped), then the filter test and, on a match,
revalidation.  No branch merges the payload or closes the socket. -/
def onMessage (f : SubscriberFilters) (raw : Option Json) : HandlerOutcome :=
  match raw with
  | none => .discarded
  | some j =>
      match parseCarUpdateMessage j with
      | none => .discarded
      | some update =>
          if matchesStatus f.statusFilter update && matchesCarId f.carIdFilter update then
            .revalidate
          else
            .filteredOut

/-- The `ws.onclose` handler: when the hook is enabled and the close code
is not 1000, one reconnect is scheduled via `setTimeout(connect, 3000)`;
the result is the delay of the scheduled attempt, if any. -/
def onCloseSchedulesReconnect (enabled : Bool) (code : Nat) : Option Nat :=
  if enabled && code != 1000 then some 3000 else none

/-! The Broadcast Hub (CarUpdatesServer of car-updates.ts). -/

/-- One connected WebSocket as the hub sees it: `sendFails` models
`ws.send` throwing (an already-closed socket); `inbox` the messages the
client actually received. -/
structure ObserverSocket where
  sendFails : Bool
  inbox : List Json

/-- `try { ws.send(message) } catch (error) { console.error(...) }`:
a failing send leaves the socket (and everything else) untouched. -/
def trySend (ws : ObserverSocket) (message : Json) : ObserverSocket :=
  if ws.sendFails then ws else { ws with inbox := ws.inbox ++ [message] }

/-- The JSON envelope `CarUpdatesServer.broadcastStatusUpdate` serializes:
`JSON.stringify({ type: 'car_status_update', data: validationResult.data })`,
modelled as the JSON value it denotes. -/
def envelopeMessage (u : CarStatusUpdate) : Json :=
  .obj [("type", .str "car_status_update"),
        ("data", .obj [("carId", .num u.carId),
                       ("oldStatus", .str u.oldStatus),
                       ("newStatus", .str u.newStatus),
                       ("timestamp", .str u.timestamp)])]

/-- `carStatusUpdateSchema.safeParse` on an already-typed update. -/
def isValidCarStatusUpdate (u : CarStatusUpdate) : Bool :=
  (decide (0 < u.carId)) && isIsoDatetime u.timestamp

/-- `CarUpdatesServer.broadcastStatusUpdate`: re-validate the update
(returning without sending when invalid), build the envelope once, then
attempt delivery to every connected socket, each send in its own
try/catch. -/
def broadcastStatusUpdate (sockets : List ObserverSocket)
    (update : CarStatusUpdate) : List ObserverSocket :=
  if isValidCarStatusUpdate update then
    sockets.map (fun ws => trySend ws (envelopeMessage update))
  else
    sockets

/-! Concrete wire-format data used in closed theorems. -/

/-- A schema-valid broadcast envelope for car 5. -/
def exEventJson : Json :=
  .obj [("type", .str "car_status_update"),
        ("data", .obj [("carId", .num 5),
                       ("oldStatus", .str "REGISTERED"),
                       ("newStatus", .str "ON_DECK"),
                       ("timestamp", .str "2025-06-01T10:00:00Z")])]

/-- The update carried by `exEventJson`. -/
def exEvent : CarStatusUpdate := ⟨5, "REGISTERED", "ON_DECK", "2025-06-01T10:00:00Z"⟩

/-- An envelope with the wrong `type`, rejected by the message schema. -/
def exBadJson : Json := .obj [("type", .str "pong"), ("data", .str "x")]

theorem matchesStatus_eq_true_iff (sf : Option CarStatus) (u : CarStatusUpdate) :
    matchesStatus sf u = true ↔
      (sf = none ∨ ∃ s, sf = some s ∧ (u.oldStatus = s.text ∨ u.newStatus = s.text)) := by
  cases sf with
  | none => simp [matchesStatus]
  | some s => simp [matchesStatus]

theorem matchesCarId_eq_true_iff (kf : Option Int) (u : CarStatusUpdate) :
    matchesCarId kf u = true ↔
      (kf = none ∨ kf = some 0 ∨ kf = some u.carId) := by
  cases kf with
  | none => simp [matchesCarId]
  | some k =>
      simp only [matchesCarId, Bool.or_eq_true, beq_iff_eq, Option.some.injEq]
      constructor
      · rintro (h0 | hc)
        · exact Or.inr (Or.inl h0)
        · exact Or.inr (Or.inr hc.symm)
      · rintro (hn | h0 | hc)
        · exact Option.noConfusion hn
        · exact Or.inl h0
        · exact Or.inr hc.symm

/-- C4: the claim's iff fails for the falsy filter value 0: with
carIdFilter set to 0 and an event for car 5 (so the event's carId does
not equal the filter), the handler still revalidates. -/
theorem C4_counterexample :
    parseCarUpdateMessage exEventJson = some exEvent ∧
    (exEvent.carId == 0) = false ∧
    onMessage ⟨none, some 0⟩ (some exEventJson) = .revalidate := by
  refine ⟨rfl, by decide, rfl⟩

/-- C4 (amended): for every delivered schema-valid TransitionEvent,
revalidate fires iff (no statusFilter, or the event's old or new status
equals the filter) and (no carIdFilter, or the filter is the falsy value
0, or the event's carId equals the filter); on a match the handler only
triggers a re-fetch — it never merges the payload into local state and
never closes the channel. -/
theorem C4_amended_filter_contract (f : SubscriberFilters) (j : Json)
    (u : CarStatusUpdate) (hp : parseCarUpdateMessage j = some u) :
    (onMessage f (some j) = .revalidate ↔
      ((f.statusFilter = none ∨ ∃ s, f.statusFilter = some s ∧
          (u.oldStatus = s.text ∨ u.newStatus = s.text)) ∧
        (f.carIdFilter = none ∨ f.carIdFilter = some 0 ∨
          f.carIdFilter = some u.carId))) ∧
    (∀ v, onMessage f (some j) ≠ .mergeState v) ∧
    onMessage f (some j) ≠ .closeChannel := by
  have hs := matchesStatus_eq_true_iff f.statusFilter u
  have hk := matchesCarId_eq_true_iff f.carIdFilter u
  have hm : onMessage f (some j)
      = if matchesStatus f.statusFilter u && matchesCarId f.carIdFilter u
        then .revalidate else .filteredOut := by
    simp [onMessage, hp]
  rw [hm]
  by_cases hb : (matchesStatus f.statusFilter u && matchesCarId f.carIdFilter u) = true
  · have hb2 := hb
    rw [Bool.and_eq_true] at hb2
    obtain ⟨h1, h2⟩ := hb2
    rw [if_pos hb]
    exact ⟨⟨fun _ => ⟨hs.mp h1, hk.mp h2⟩, fun _ => rfl⟩,
      fun v h => HandlerOutcome.noConfusion h,
      fun h => HandlerOutcome.noConfusion h⟩
  · rw [if_neg hb]
    refine ⟨⟨fun h => HandlerOutcome.noConfusion h, fun hr => ?_⟩,
      fun v h => HandlerOutcome.noConfusion h,
      fun h => HandlerOutcome.noConfusion h⟩
    exact (hb (by rw [Bool.and_eq_true]; exact ⟨hs.mpr hr.1, hk.mpr hr.2⟩)).elim

/-- Witness for C4 (amended): with no filters, a valid event triggers
revalidation. -/
theorem C4_amended_witness :
    onMessage ⟨none, none⟩ (some exEventJson) = .revalidate := by
  have h := C4_amended_filter_contract ⟨none, none⟩ exEventJson exEvent rfl
  exact h.1.mpr ⟨Or.inl rfl, Or.inl rfl⟩

/-- C8: an inbound message that fails JSON parsing or the envelope schema
is discarded: no revalidation is triggered, nothing is merged into local
state, and the channel is not closed. -/
theorem C8_malformed_discarded (f : SubscriberFilters) (raw : Option Json)
    (hbad : ∀ j, raw = some j → parseCarUpdateMessage j = none) :
    onMessage f raw = .discarded ∧
    onMessage f raw ≠ .revalidate ∧
    (∀ v, onMessage f raw ≠ .mergeState v) ∧
    onMessage f raw ≠ .closeChannel := by
  have hd : onMessage f raw = .discarded := by
    cases raw with
    | none => rfl
    | some j => simp [onMessage, hbad j rfl]
  refine ⟨hd, ?_, ?_, ?_⟩ <;> rw [hd]
  · exact fun h => HandlerOutcome.noConfusion h
  · exact fun v h => HandlerOutcome.noConfusion h
  · exact fun h => HandlerOutcome.noConfusion h

/-- Witness for C8: a wrong-`type` envelope is discarded. -/
theorem C8_malformed_witness :
    onMessage ⟨none, none⟩ (some exBadJson) = .discarded :=
  (C8_malformed_discarded ⟨none, none⟩ (some exBadJson)
    (fun j hj => by cases hj; rfl)).1

/-- C9: while the hook is enabled, a close with an abnormal code (not
1000) schedules exactly one reconnect attempt with the fixed 3000 ms
backoff delay; a clean close (code 1000) schedules none. -/
theorem C9_reconnect_policy (code : Nat) :
    onCloseSchedulesReconnect true code
      = if code = 1000 then none else some 3000 := by
  by_cases h : code = 1000 <;> simp [onCloseSchedulesReconnect, h]

/-- C10: a carIdFilter of 0 is falsy, so the item-id test passes for
every event regardless of its carId, and the whole handler behaves
exactly as if no item-id filter were declared. -/
theorem C10_zero_filter_is_unset (sf : Option CarStatus) (u : CarStatusUpdate) :
    matchesCarId (some 0) u = true ∧
    onMessage ⟨sf, some 0⟩ = onMessage ⟨sf, none⟩ := by
  refine ⟨rfl, ?_⟩
  funext raw
  cases raw with
  | none => rfl
  | some j =>
      cases hp : parseCarUpdateMessage j with
      | none => simp [onMessage, hp]
      | some u2 => simp [onMessage, hp, matchesCarId]

/-- C7: for a valid update, the hub attempts delivery to every connected
socket independently: the result is the pointwise image in which each
non-failing socket has received the serialized envelope and each failing
socket is unchanged — one failing send never aborts the rest. -/
theorem C7_per_socket_delivery (sockets : List ObserverSocket)
    (update : CarStatusUpdate) (hv : isValidCarStatusUpdate update = true) :
    (broadcastStatusUpdate sockets update).length = sockets.length ∧
    broadcastStatusUpdate sockets update
      = sockets.map (fun ws =>
          if ws.sendFails then ws
          else { ws with inbox := ws.inbox ++ [envelopeMessage update] }) ∧
    ∀ ws ∈ sockets, ws.sendFails = false →
      { ws with inbox := ws.inbox ++ [envelopeMessage update] }
        ∈ broadcastStatusUpdate sockets update := by
  have hmap : broadcastStatusUpdate sockets update
      = sockets.map (fun ws =>
          if ws.sendFails then ws
          else { ws with inbox := ws.inbox ++ [envelopeMessage update] }) := by
    unfold broadcastStatusUpdate
    rw [if_pos hv]
    rfl
  refine ⟨by rw [hmap]; exact List.length_map _ _, hmap, ?_⟩
  intro ws hws hnf
  rw [hmap]
  have hmem := List.mem_map_of_mem (fun ws =>
    if ws.sendFails then ws
    else { ws with inbox := ws.inbox ++ [envelopeMessage update] }) hws
  simpa [hnf] using hmem

/-- Three registered sockets, the middle one with a failing send. -/
def exSockets : List ObserverSocket := [⟨false, []⟩, ⟨true, []⟩, ⟨false, []⟩]

/-- Witness for C7: with a failing socket in the middle, both healthy
sockets still receive the envelope and the failing one is untouched. -/
theorem C7_per_socket_witness :
    broadcastStatusUpdate exSockets exEvent
      = [⟨false, [envelopeMessage exEvent]⟩, ⟨true, []⟩,
         ⟨false, [envelopeMessage exEvent]⟩] := by
  have h := C7_per_socket_delivery exSockets exEvent rfl
  rw [h.2.1]
  rfl

end CarTracker
